import Mathlib

/-!
Shallow embedding of the real-time voice session engine (the `App`
component of the HUD front end) together with proofs of the spec's
testable properties.

Times (the output audio clock and buffer durations) are modelled as
rationals; the JS number arithmetic used by the scheduler is exact on
the operations involved (max and addition), so `ℚ` is a faithful carrier.
Impure fields of a log entry that no claim mentions (the random `id`
string and the wall-clock `timestamp`) are omitted from the record.
-/

/-- Enumeration `SystemStatus` from `types.ts`. -/
inductive SystemStatus where
  | standby
  | initializing
  | connecting
  | listening
  | thinking
  | speaking
  | error
deriving DecidableEq, Repr

/-- Union type `LogSender` from `types.ts`: `'USER' | 'JARVIS' | 'SYSTEM'`. -/
inductive LogSender where
  | user
  | jarvis
  | system
deriving DecidableEq, Repr

/-- A grounding citation `{title, uri}` collected from grounding metadata. -/
structure GroundingSource where
  title : String
  uri : String
deriving DecidableEq, Repr

/-- Log record appended to the console log (`ConsoleLog`): sender, message,
and the optional grounding-source list passed for JARVIS turn entries. -/
structure LogEntry where
  sender : LogSender
  message : String
  srcs : Option (List GroundingSource)
deriving DecidableEq, Repr

/-- Embedding of `addLog`: `setLogs(prev => [...prev, entry].slice(-50))`.
`slice(-50)` keeps the last (at most) 50 elements, i.e. drops
`length - 50` elements from the front. -/
def addLog (logs : List LogEntry) (e : LogEntry) : List LogEntry :=
  let l := logs ++ [e]
  l.drop (l.length - 50)

/-- Playback-scheduler state: the `nextStartTimeRef` cursor and the size of
the `activeSourcesRef` set of in-flight `AudioBufferSourceNode`s. -/
structure PlaybackQueue where
  nextStartTime : ℚ
  activeSources : ℕ
deriving DecidableEq, Repr

/-- Embedding of `stopAllAudio`: stops and clears every active source and
sets `nextStartTimeRef.current = 0`. -/
def stopAllAudio (_q : PlaybackQueue) : PlaybackQueue :=
  { nextStartTime := 0, activeSources := 0 }

/-- Embedding of the scheduling core of the audio-playback branch of
`onmessage` (`nextStartTime = max(nextStartTime, ctx.currentTime)`, then
`sourceNode.start(nextStartTime); nextStartTime += audioBuffer.duration`
and the node is added to the active set). Returns the start time assigned
to the chunk together with the updated queue; `now` is the value of
`ctx.currentTime` when the branch runs and `dur` the decoded buffer's
duration. -/
def schedulePlayback (q : PlaybackQueue) (now dur : ℚ) : ℚ × PlaybackQueue :=
  let start := max q.nextStartTime now
  (start, { nextStartTime := start + dur, activeSources := q.activeSources + 1 })

/-- Start times assigned to a sequence of audio chunks, each given as a pair
`(now, dur)` of the clock value at its arrival and its duration, enqueued
one after the other with no intervening flush. -/
def startTimes (q : PlaybackQueue) : List (ℚ × ℚ) → List ℚ
  | [] => []
  | e :: rest =>
      (schedulePlayback q e.1 e.2).1 ::
        startTimes (schedulePlayback q e.1 e.2).2 rest

/-- Operations on the playback queue: enqueueing a chunk or flushing. -/
inductive QOp where
  | enq (now dur : ℚ)
  | flush
deriving DecidableEq, Repr

/-- One step of the playback queue under an operation. -/
def qstep (q : PlaybackQueue) : QOp → PlaybackQueue
  | QOp.enq now dur => (schedulePlayback q now dur).2
  | QOp.flush => stopAllAudio q

/-- The byte value an optional analyser tap contributes at a bin: the sampled
magnitude when the tap exists, 0 when it is absent. Both analysers are
created with `fftSize = 256`, so `frequencyBinCount = 128` and
`getByteFrequencyData` fills 128 bytes. -/
def tapBin (tap : Option (Fin 128 → Fin 256)) (i : Fin 128) : ℕ :=
  match tap with
  | none => 0
  | some data => (data i).val

/-- Embedding of `updateVisualization`: `combinedData` starts as 128 zero
bytes; for each present analyser the loop sets
`combinedData[i] = Math.max(combinedData[i], data[i])` over all bins. -/
def updateVisualization (inTap outTap : Option (Fin 128 → Fin 256)) :
    Fin 128 → ℕ :=
  let combined0 : Fin 128 → ℕ := fun _ => 0
  let combined1 : Fin 128 → ℕ :=
    match inTap with
    | none => combined0
    | some data => fun i => max (combined0 i) (data i).val
  match outTap with
  | none => combined1
  | some data => fun i => max (combined1 i) (data i).val

/-- State of the `App` component that the session engine mutates: the
externally observed status, the bounded console log, the `isLive` flag,
the playback queue, whether the microphone `MediaStream` is held
(`streamRef`), whether a connect promise has been stored
(`sessionPromiseRef`), the two transcription accumulation buffers
(`currentTranscriptionRef.input` / `.output`), the accumulated grounding
sources (`currentSourcesRef`), and whether the visualization tick loop is
scheduled (`animationFrameRef`). -/
structure AppState where
  status : SystemStatus
  logs : List LogEntry
  isLive : Bool
  playback : PlaybackQueue
  stream : Bool
  sessionPromise : Bool
  inputTx : String
  outputTx : String
  grounding : List GroundingSource
  tickRunning : Bool
deriving DecidableEq, Repr

/-- Embedding of `handleSystemError`: sets status `ERROR`, appends one
SYSTEM log entry with the prefixed message, clears `isLive`, and cancels
the visualization tick loop. It touches nothing else: the media stream,
the active sources and the playback cursor are left as they were. -/
def handleSystemError (s : AppState) (errorMsg : String) : AppState :=
  { s with
      status := SystemStatus.error,
      logs := addLog s.logs ⟨LogSender.system, "Critical System Error: " ++ errorMsg, none⟩,
      isLive := false,
      tickRunning := false }

/-- Outcome of the `navigator.mediaDevices.getUserMedia` request, an input
of the environment: granted, or denied with the thrown error's message. -/
inductive MediaResult where
  | granted
  | denied (msg : String)
deriving DecidableEq, Repr

/-- External acquisitions attempted by `startSession`: the capture-device
request and the remote `ai.live.connect` call. -/
inductive StartAction where
  | getUserMedia
  | connectRemote
deriving DecidableEq, Repr

/-- Embedding of the synchronous control flow of `startSession` up to the
point where the connect promise is stored (the five callbacks fire later
as separate events). `apiKey` is the configured credential and `media`
the outcome of the device request. Returns the new state together with
the list of external acquisitions attempted, in order. Per the source:
an `isLive` guard returns immediately; otherwise status `INITIALIZING`
and a SYSTEM log entry; the credential is checked before any context,
device or network step, and its absence throws into the catch handler;
with a credential the analysers are created and the tick loop started,
then `getUserMedia` runs (its rejection also reaches the catch handler,
which falls back to the message `Uplink failed.` when the error has
none); on grant, status `CONNECTING`, a SYSTEM log entry, the connect
call, and the promise is stored. -/
def startSession (s : AppState) (apiKey : Option String) (media : MediaResult) :
    AppState × List StartAction :=
  if s.isLive then (s, [])
  else
    let s1 : AppState :=
      { s with
          status := SystemStatus.initializing,
          logs := addLog s.logs ⟨LogSender.system, "Bypassing standard security protocols...", none⟩ }
    match apiKey with
    | none =>
        (handleSystemError s1 "Security handshake failed. API Key missing.", [])
    | some _ =>
        let s2 : AppState := { s1 with tickRunning := true }
        match media with
        | MediaResult.denied msg =>
            (handleSystemError s2 (if msg = "" then "Uplink failed." else msg),
             [StartAction.getUserMedia])
        | MediaResult.granted =>
            let s3 : AppState :=
              { s2 with
                  stream := true,
                  status := SystemStatus.connecting,
                  logs := addLog s2.logs ⟨LogSender.system, "Establishing neural link v5.0...", none⟩,
                  sessionPromise := true }
            (s3, [StartAction.getUserMedia, StartAction.connectRemote])

/-- Embedding of `stopSession`: requests close of the remote session,
stops every track of the media stream, runs `stopAllAudio`, clears
`isLive`, forces status `STANDBY`, cancels the tick loop and appends a
SYSTEM log entry. (The promise ref itself is kept, as in the source.) -/
def stopSession (s : AppState) : AppState :=
  { s with
      stream := false,
      playback := stopAllAudio s.playback,
      isLive := false,
      status := SystemStatus.standby,
      tickRunning := false,
      logs := addLog s.logs ⟨LogSender.system, "Entering Standby Mode.", none⟩ }

/-- Embedding of the `ended` listener installed on each playback source
node: the node is removed from the active set, and if the set became
empty the status is set to `LISTENING`, whatever it was before. -/
def onSourceEnded (s : AppState) : AppState :=
  let n := s.playback.activeSources - 1
  let s1 : AppState := { s with playback := { s.playback with activeSources := n } }
  if n = 0 then { s1 with status := SystemStatus.listening } else s1

/-- Entries emitted on turn completion, in source order: the user entry
when the accumulated user text is non-empty, then the JARVIS entry
(carrying a snapshot of the grounding sources) when the accumulated model
text is non-empty. -/
def emittedEntries (s : AppState) : List LogEntry :=
  (if s.inputTx = "" then [] else [⟨LogSender.user, s.inputTx, none⟩]) ++
  (if s.outputTx = "" then [] else [⟨LogSender.jarvis, s.outputTx, some s.grounding⟩])

/-- Embedding of the `turnComplete` branch of `onmessage`: `addLog` the
user buffer when truthy (non-empty), then the model buffer when truthy
together with a copy of the grounding sources, then reset both buffers
and the source list. -/
def onTurnComplete (s : AppState) : AppState :=
  let logs1 :=
    if s.inputTx = "" then s.logs
    else addLog s.logs ⟨LogSender.user, s.inputTx, none⟩
  let logs2 :=
    if s.outputTx = "" then logs1
    else addLog logs1 ⟨LogSender.jarvis, s.outputTx, some s.grounding⟩
  { s with logs := logs2, inputTx := "", outputTx := "", grounding := [] }

/-- Embedding of the audio-playback branch of `onmessage` at the app
level: status `SPEAKING` and the chunk is scheduled on the playback
queue. -/
def onAudioChunk (s : AppState) (now dur : ℚ) : AppState :=
  { s with
      status := SystemStatus.speaking,
      playback := (schedulePlayback s.playback now dur).2 }

/-- Embedding of the `interrupted` branch of `onmessage`: flush all audio,
status `LISTENING`, one SYSTEM log entry. -/
def onInterrupted (s : AppState) : AppState :=
  { s with
      playback := stopAllAudio s.playback,
      status := SystemStatus.listening,
      logs := addLog s.logs ⟨LogSender.system, "Interruption detected. Resetting...", none⟩ }

/-- A representative state of a live mid-playback session: status
`SPEAKING`, live, microphone stream held, connect promise stored, one
in-flight scheduled source with the cursor at 3 seconds, tick loop
running. Used as a concrete input below. -/
def liveState : AppState :=
  { status := SystemStatus.speaking,
    logs := [],
    isLive := true,
    playback := { nextStartTime := 3, activeSources := 1 },
    stream := true,
    sessionPromise := true,
    inputTx := "",
    outputTx := "",
    grounding := [],
    tickRunning := true }

/-- The initial state of the component: `STANDBY`, empty log, nothing
held, cursor at 0. -/
def standbyState : AppState :=
  { status := SystemStatus.standby,
    logs := [],
    isLive := false,
    playback := { nextStartTime := 0, activeSources := 0 },
    stream := false,
    sessionPromise := false,
    inputTx := "",
    outputTx := "",
    grounding := [],
    tickRunning := false }

/-- A live state whose transcription buffers hold the deltas of the
spec's Scenario E: user text `hello`, model text `hi there`. -/
def scenarioEState : AppState :=
  { liveState with inputTx := "hello", outputTx := "hi there" }

/-- A sample log entry used to instantiate the bounded-log theorems. -/
def sampleEntry : LogEntry :=
  ⟨LogSender.system, "Entering Standby Mode.", none⟩

/-! Helper lemmas about the bounded log. -/

lemma addLog_length (l : List LogEntry) (e : LogEntry) :
    (addLog l e).length = min (l.length + 1) 50 := by
  simp [addLog]
  omega

lemma addLog_of_length_lt (l : List LogEntry) (e : LogEntry) (h : l.length < 50) :
    addLog l e = l ++ [e] := by
  have h0 : (l ++ [e]).length - 50 = 0 := by simp; omega
  simp only [addLog, h0, List.drop_zero]

lemma addLog_of_length_eq (l : List LogEntry) (e : LogEntry) (h : l.length = 50) :
    addLog l e = l.tail ++ [e] := by
  cases l with
  | nil => simp at h
  | cons a t =>
      have ht : t.length = 49 := by simpa using h
      show List.drop (((a :: t) ++ [e]).length - 50) ((a :: t) ++ [e]) = t ++ [e]
      have h1 : ((a :: t) ++ [e]).length - 50 = 1 := by simp [ht]
      rw [h1, List.cons_append, List.drop_succ_cons, List.drop_zero]

lemma foldl_addLog_length_le (es : List LogEntry) :
    ∀ l : List LogEntry, l.length ≤ 50 → (es.foldl addLog l).length ≤ 50 := by
  induction es with
  | nil => intro l h; simpa using h
  | cons a es ih =>
      intro l h
      exact ih (addLog l a) (by rw [addLog_length]; omega)

/-- C6: across every sequence of appends the log never exceeds 50 entries,
and an append onto a log that already holds 50 drops the oldest (head)
entry while keeping the new entry at the tail end. -/
theorem log_bounded_oldest_evicted :
    (∀ (l : List LogEntry) (e : LogEntry), (addLog l e).length ≤ 50) ∧
    (∀ (l : List LogEntry) (e : LogEntry), l.length = 50 →
        addLog l e = l.tail ++ [e]) ∧
    (∀ (es : List LogEntry) (l : List LogEntry), l.length ≤ 50 →
        (es.foldl addLog l).length ≤ 50) :=
  ⟨fun l e => by rw [addLog_length]; omega,
   fun l e h => addLog_of_length_eq l e h,
   fun es l h => foldl_addLog_length_le es l h⟩

theorem log_bounded_oldest_evicted_witness :
    (List.replicate 50 sampleEntry).length = 50 ∧
    addLog (List.replicate 50 sampleEntry) sampleEntry =
      (List.replicate 50 sampleEntry).tail ++ [sampleEntry] ∧
    (([sampleEntry, sampleEntry, sampleEntry] : List LogEntry).foldl addLog []).length ≤ 50 :=
  ⟨by simp,
   log_bounded_oldest_evicted.2.1 _ _ (by simp),
   log_bounded_oldest_evicted.2.2 _ _ (by simp)⟩

/-- C8: every bin of the merged visualization vector equals the
element-wise maximum of the capture-side and playback-side spectra at
that bin, an absent tap contributing 0, and every bin value lies in
[0, 255]. -/
theorem visualization_bin_max_bounded (inTap outTap : Option (Fin 128 → Fin 256))
    (i : Fin 128) :
    updateVisualization inTap outTap i = max (tapBin inTap i) (tapBin outTap i) ∧
    0 ≤ updateVisualization inTap outTap i ∧
    updateVisualization inTap outTap i ≤ 255 := by
  have hb : ∀ t : Option (Fin 128 → Fin 256), tapBin t i ≤ 255 := by
    intro t
    cases t with
    | none => simp [tapBin]
    | some d => exact Nat.lt_succ_iff.mp (d i).isLt
  have heq : updateVisualization inTap outTap i = max (tapBin inTap i) (tapBin outTap i) := by
    cases inTap <;> cases outTap <;> simp [updateVisualization, tapBin]
  refine ⟨heq, Nat.zero_le _, ?_⟩
  rw [heq]
  exact max_le (hb inTap) (hb outTap)

/-! Helper lemmas about the playback schedule. -/

lemma startTimes_chain_gap (evts : List (ℚ × ℚ)) :
    ∀ q : PlaybackQueue,
      List.Chain' (fun a b => a.1 + a.2 ≤ b.1)
        ((startTimes q evts).zip (evts.map Prod.snd)) := by
  induction evts with
  | nil => intro q; simp [startTimes]
  | cons e rest ih =>
      intro q
      cases rest with
      | nil => simp [startTimes]
      | cons f r =>
          have ih' := ih (schedulePlayback q e.1 e.2).2
          simp only [startTimes, List.map_cons, List.zip_cons_cons,
            List.chain'_cons] at ih' ⊢
          refine ⟨?_, ih'⟩
          show (schedulePlayback q e.1 e.2).1 + e.2 ≤
                max ((schedulePlayback q e.1 e.2).1 + e.2) f.1
          exact le_max_left _ _

lemma startTimes_chain_mono (evts : List (ℚ × ℚ)) :
    ∀ q : PlaybackQueue, (∀ e ∈ evts, 0 ≤ e.2) →
      List.Chain' (fun a b : ℚ => a ≤ b) (startTimes q evts) := by
  induction evts with
  | nil => intro q _; simp [startTimes]
  | cons e rest ih =>
      intro q hd
      cases rest with
      | nil => simp [startTimes]
      | cons f r =>
          have ih' := ih (schedulePlayback q e.1 e.2).2
            (fun x hx => hd x (List.mem_cons_of_mem _ hx))
          simp only [startTimes, List.chain'_cons] at ih' ⊢
          refine ⟨?_, ih'⟩
          show (schedulePlayback q e.1 e.2).1 ≤
                max ((schedulePlayback q e.1 e.2).1 + e.2) f.1
          exact le_trans (le_add_of_nonneg_right (hd e (List.mem_cons_self _ _)))
            (le_max_left _ _)

/-- C1: for every sequence of audio chunks enqueued with no intervening
flush, given as pairs of arrival clock value and (nonnegative) duration,
the assigned start times are non-decreasing and each start time is at
least the previous start time plus the previous chunk's duration: the
scheduler introduces no overlap and no gap. -/
theorem playback_no_overlap_no_gap (q : PlaybackQueue) (evts : List (ℚ × ℚ))
    (hd : ∀ e ∈ evts, 0 ≤ e.2) :
    List.Chain' (fun a b => a.1 + a.2 ≤ b.1)
      ((startTimes q evts).zip (evts.map Prod.snd)) ∧
    List.Chain' (fun a b : ℚ => a ≤ b) (startTimes q evts) :=
  ⟨startTimes_chain_gap evts q, startTimes_chain_mono evts q hd⟩

theorem playback_no_overlap_no_gap_witness :
    List.Chain' (fun a b => a.1 + a.2 ≤ b.1)
      ((startTimes { nextStartTime := 0, activeSources := 0 } [(0, 1), (0, 2)]).zip
        (([((0 : ℚ), (1 : ℚ)), (0, 2)]).map Prod.snd)) ∧
    List.Chain' (fun a b : ℚ => a ≤ b)
      (startTimes { nextStartTime := 0, activeSources := 0 } [(0, 1), (0, 2)]) :=
  playback_no_overlap_no_gap { nextStartTime := 0, activeSources := 0 }
    [(0, 1), (0, 2)] (by intro e he; fin_cases he <;> norm_num)

/-- C2 (counterexample): the claim says a flush resets the next-start-time
cursor to the current output-clock time; the code sets it to 0. At the
concrete input where the cursor stands at 2 and `ctx.currentTime` is 1 at
the moment of the flush, the cursor after the flush is 0, not 1. -/
theorem flush_resets_to_zero_counterexample :
    (stopAllAudio { nextStartTime := 2, activeSources := 1 }).nextStartTime = 0 ∧
    (stopAllAudio { nextStartTime := 2, activeSources := 1 }).nextStartTime ≠ 1 := by
  refine ⟨rfl, ?_⟩
  norm_num [stopAllAudio]

/-- C2 (amended): across any sequence of enqueue and flush operations the
cursor never decreases at an enqueue of a chunk with nonnegative
duration, and a flush resets it to 0 (not to the output-clock time);
immediately after a flush the cursor equals 0. -/
theorem cursor_monotone_flush_to_zero :
    (∀ (q : PlaybackQueue) (now dur : ℚ), 0 ≤ dur →
        q.nextStartTime ≤ (qstep q (QOp.enq now dur)).nextStartTime) ∧
    (∀ q : PlaybackQueue, (qstep q QOp.flush).nextStartTime = 0) := by
  constructor
  · intro q now dur hdur
    show q.nextStartTime ≤ max q.nextStartTime now + dur
    calc q.nextStartTime ≤ max q.nextStartTime now := le_max_left _ _
      _ ≤ max q.nextStartTime now + dur := le_add_of_nonneg_right hdur
  · intro q
    rfl

theorem cursor_monotone_flush_to_zero_witness :
    ({ nextStartTime := 5, activeSources := 2 } : PlaybackQueue).nextStartTime ≤
      (qstep { nextStartTime := 5, activeSources := 2 } (QOp.enq 3 1)).nextStartTime ∧
    (qstep { nextStartTime := 5, activeSources := 2 } QOp.flush).nextStartTime = 0 :=
  ⟨cursor_monotone_flush_to_zero.1 _ 3 1 (by norm_num),
   cursor_monotone_flush_to_zero.2 _⟩

/-- C9: an enqueue immediately following a flush (the clock having only
advanced in between, `tFlush ≤ tEnq`) schedules the chunk at or after the
output-clock time at which the flush occurred, never before it. -/
theorem enqueue_after_flush_at_or_after (q : PlaybackQueue) (tFlush tEnq dur : ℚ)
    (h : tFlush ≤ tEnq) :
    tFlush ≤ (schedulePlayback (stopAllAudio q) tEnq dur).1 := by
  show tFlush ≤ max (0 : ℚ) tEnq
  exact le_trans h (le_max_right _ _)

theorem enqueue_after_flush_witness :
    (1 : ℚ) ≤ (schedulePlayback
      (stopAllAudio { nextStartTime := 7, activeSources := 3 }) 2 5).1 :=
  enqueue_after_flush_at_or_after _ 1 2 5 (by norm_num)

/-- C3 (behavior at a failing input): on a fatal error from a live
mid-playback state, `handleSystemError` reaches `ERROR`, marks the
session not live and cancels the visualization tick loop, but leaves the
microphone stream held, the scheduled source in flight and the playback
cursor where it was — the teardown is partial, against the spec's
requirement; `stopSession`, by contrast, performs the full teardown. -/
theorem error_teardown_is_partial :
    (handleSystemError liveState "Neural link failure").status = SystemStatus.error ∧
    (handleSystemError liveState "Neural link failure").isLive = false ∧
    (handleSystemError liveState "Neural link failure").tickRunning = false ∧
    (handleSystemError liveState "Neural link failure").stream = true ∧
    (handleSystemError liveState "Neural link failure").playback.activeSources = 1 ∧
    (handleSystemError liveState "Neural link failure").playback.nextStartTime = 3 ∧
    (stopSession liveState).status = SystemStatus.standby ∧
    (stopSession liveState).stream = false ∧
    (stopSession liveState).playback =
      { nextStartTime := 0, activeSources := 0 } ∧
    (stopSession liveState).tickRunning = false :=
  ⟨rfl, rfl, rfl, rfl, rfl, rfl, rfl, rfl, rfl, rfl⟩

/-- C4 (behavior at a failing input): from the `ERROR` state reached by a
fatal error during playback, the still-pending source node's `ended`
event fires (the error handler never stopped it) and moves the status to
`LISTENING`, a state other than `STANDBY` — so `ERROR` is not terminal in
the way the claim states. -/
theorem error_state_escapes_to_listening :
    (handleSystemError liveState "Neural link failure").status = SystemStatus.error ∧
    (onSourceEnded (handleSystemError liveState "Neural link failure")).status =
      SystemStatus.listening ∧
    SystemStatus.listening ≠ SystemStatus.standby :=
  ⟨rfl, rfl, by decide⟩

/-- C10: calling `startSession` while the session is live is a complete
no-op: the state is returned unchanged and no acquisition is attempted. -/
theorem start_while_live_noop (s : AppState) (apiKey : Option String)
    (media : MediaResult) (h : s.isLive = true) :
    startSession s apiKey media = (s, []) := by
  simp [startSession, h]

theorem start_while_live_noop_witness :
    startSession liveState (some "key") MediaResult.granted = (liveState, []) :=
  start_while_live_noop liveState (some "key") MediaResult.granted rfl

/-- C7: starting with no credential configured ends in `ERROR`, attempts
no device request and no remote connect, leaves the stream, the promise
ref and the playback queue untouched, and appends exactly two SYSTEM
entries — the lifecycle note and the one reporting the missing API key. -/
theorem start_without_credential (s : AppState) (media : MediaResult)
    (hs : s.isLive = false) :
    (startSession s none media).2 = [] ∧
    (startSession s none media).1.status = SystemStatus.error ∧
    (startSession s none media).1.stream = s.stream ∧
    (startSession s none media).1.sessionPromise = s.sessionPromise ∧
    (startSession s none media).1.playback = s.playback ∧
    (startSession s none media).1.logs =
      addLog
        (addLog s.logs ⟨LogSender.system, "Bypassing standard security protocols...", none⟩)
        ⟨LogSender.system,
          "Critical System Error: Security handshake failed. API Key missing.", none⟩ := by
  refine ⟨?_, ?_, ?_, ?_, ?_, ?_⟩ <;> simp [startSession, hs, handleSystemError]

theorem start_without_credential_witness :
    (startSession standbyState none MediaResult.granted).2 = [] ∧
    (startSession standbyState none MediaResult.granted).1.status = SystemStatus.error :=
  ⟨(start_without_credential standbyState MediaResult.granted rfl).1,
   (start_without_credential standbyState MediaResult.granted rfl).2.1⟩

lemma addLog_addLog_of_le (l : List LogEntry) (u j : LogEntry)
    (h : l.length + 2 ≤ 50) :
    addLog (addLog l u) j = l ++ [u, j] := by
  rw [addLog_of_length_lt l u (by omega)]
  rw [addLog_of_length_lt (l ++ [u]) j (by simp; omega)]
  simp

/-- C5: finalizing a turn empties both transcription buffers and the
grounding-source list, and appends (through `addLog`) a User entry iff
the accumulated user text is non-empty followed by a JARVIS entry iff the
accumulated model text is non-empty; when the log has room, the new log
is exactly the old log followed by those entries in that order. -/
theorem finalize_turn_emits (s : AppState) :
    (onTurnComplete s).inputTx = "" ∧
    (onTurnComplete s).outputTx = "" ∧
    (onTurnComplete s).grounding = [] ∧
    (onTurnComplete s).logs = (emittedEntries s).foldl addLog s.logs ∧
    (s.logs.length + (emittedEntries s).length ≤ 50 →
        (onTurnComplete s).logs = s.logs ++ emittedEntries s) := by
  refine ⟨rfl, rfl, rfl, ?_, ?_⟩
  · by_cases h1 : s.inputTx = "" <;> by_cases h2 : s.outputTx = "" <;>
      simp [onTurnComplete, emittedEntries, h1, h2]
  · intro hlen
    by_cases h1 : s.inputTx = "" <;> by_cases h2 : s.outputTx = ""
    · simp [onTurnComplete, emittedEntries, h1, h2]
    · simp only [emittedEntries, h1, h2] at hlen
      simp only [onTurnComplete, emittedEntries, h1, h2, if_true, if_false,
        ite_true, ite_false]
      rw [addLog_of_length_lt _ _ (by simp at hlen; omega)]
      simp
    · simp only [emittedEntries, h1, h2] at hlen
      simp only [onTurnComplete, emittedEntries, h1, h2, if_true, if_false,
        ite_true, ite_false]
      rw [addLog_of_length_lt _ _ (by simp at hlen; omega)]
      simp
    · simp only [emittedEntries, h1, h2] at hlen
      simp only [onTurnComplete, emittedEntries, h1, h2, if_true, if_false,
        ite_true, ite_false]
      rw [addLog_addLog_of_le s.logs _ _ (by simp at hlen; omega)]
      simp

theorem finalize_turn_emits_witness :
    (onTurnComplete scenarioEState).inputTx = "" ∧
    (onTurnComplete scenarioEState).outputTx = "" ∧
    (onTurnComplete scenarioEState).logs =
      scenarioEState.logs ++
        [⟨LogSender.user, "hello", none⟩,
         ⟨LogSender.jarvis, "hi there", some []⟩] := by
  have h := finalize_turn_emits scenarioEState
  refine ⟨h.1, h.2.1, ?_⟩
  have h5 := h.2.2.2.2 (by simp [scenarioEState, liveState, emittedEntries])
  rw [h5]
  simp [scenarioEState, liveState, emittedEntries]
